import Mathlib

/-!
Verification development for the MLOps-Platform documentation repository.

The repository consists of declarative configuration: generated route tables
(route-to-component mappings), a hand-authored sidebar configuration, and a
Dockerfile serving the built static bundle.  The route tables and sidebar
configuration committed in the repository are embedded below as concrete data.
The two build-time operations described by the design document
(`buildRoutes` and `composeSidebar`) are not implemented inside the
repository (they live in the external documentation framework), so they are
modelled here from the specification and the committed artifacts are checked
against the invariants they are required to satisfy.
-/

/-- A content document: a unique logical path plus an optional parent path,
as described in the route-registry builder's input contract. -/
structure Document where
  path : String
  parent : Option String
deriving DecidableEq, Repr

/-- Modelled from the spec: the error taxonomy of the route-registry builder.
`DuplicatePathError` — two documents claim the same route path;
`OrphanedChildError` — a document references a nonexistent parent.
Each error carries the offending path (the build terminates with a
descriptive message identifying the offending path). -/
inductive BuildError where
  | DuplicatePathError (path : String)
  | OrphanedChildError (path : String)
deriving DecidableEq, Repr

/-- A Route Entry: URL path, opaque component reference, `exact` flag,
optional sidebar association, and nested child routes.  This mirrors the
object shape of the committed route tables, where `exact` and `routes`
are optional fields (absent `exact` is `false`, absent `routes` is `[]`,
absent `sidebar` is `none`). -/
inductive RouteEntry where
  | mk (path : String) (componentRef : String) (exact : Bool)
       (sidebar : Option String) (routes : List RouteEntry)

def RouteEntry.path : RouteEntry → String
  | .mk p _ _ _ _ => p

def RouteEntry.componentRef : RouteEntry → String
  | .mk _ c _ _ _ => c

def RouteEntry.exact : RouteEntry → Bool
  | .mk _ _ e _ _ => e

def RouteEntry.sidebar : RouteEntry → Option String
  | .mk _ _ _ s _ => s

def RouteEntry.routes : RouteEntry → List RouteEntry
  | .mk _ _ _ _ rs => rs

/-- The paths declared by a document sequence, in input order. -/
def docPaths (docs : List Document) : List String :=
  docs.map Document.path

/-- First path that occurs more than once in the list, if any. -/
def findDuplicate : List String → Option String
  | [] => none
  | p :: rest => if rest.contains p then some p else findDuplicate rest

/-- A document is orphaned in a document set when it declares a parent path
that is not the path of any document in the set. -/
def isOrphanIn (docs : List Document) (d : Document) : Bool :=
  match d.parent with
  | none => false
  | some pp => !((docPaths docs).contains pp)

/-- The parent path declared by the first orphaned document, if any. -/
def findOrphan (docs : List Document) : Option String :=
  (docs.find? (isOrphanIn docs)).bind Document.parent

/-- Modelled from the spec: the component reference is an opaque identifier
naming which content renderer to invoke — a registry lookup key derived from
the path (`path -> RenderableId`). -/
def componentRefFor (p : String) : String := p

theorem length_filter_neg_lt {α : Type} (q : α → Bool) (l : List α)
    (h : l.filter q ≠ []) :
    (l.filter (fun a => !q a)).length < l.length := by
  induction l with
  | nil => exact absurd rfl h
  | cons a as ih =>
    by_cases hq : q a
    · simp only [List.filter_cons, hq, Bool.not_true, Bool.false_eq_true,
        if_false, if_true, List.length_cons]
      exact Nat.lt_succ_of_le (List.length_filter_le _ _)
    · simp only [List.filter_cons, hq, Bool.not_false, Bool.false_eq_true,
        if_false, if_true, List.length_cons] at h ⊢
      exact Nat.succ_lt_succ (ih h)

/-- Modelled from the spec: build the Route Entry for document `d`, nesting
under it (in input order) the entries of the documents in `pool` that declare
`d.path` as their parent; leaves (entries with no children) are `exact`. -/
def buildEntry (pool : List Document) (d : Document) : RouteEntry :=
  RouteEntry.mk d.path (componentRefFor d.path)
    (pool.filter (fun c => c.parent == some d.path)).isEmpty none
    ((pool.filter (fun c => c.parent == some d.path)).attach.map
      (fun ck => buildEntry (pool.filter (fun c => !(c.parent == some d.path))) ck.1))
termination_by pool.length
decreasing_by
  exact length_filter_neg_lt _ _ (List.ne_nil_of_mem ck.2)

/-- The synthesized root entry (`path: '/'`). -/
def rootEntry : RouteEntry :=
  RouteEntry.mk "/" (componentRefFor "/") true none []

/-- The synthesized catch-all entry (`path: '*'`), appended last. -/
def catchAllEntry : RouteEntry :=
  RouteEntry.mk "*" (componentRefFor "*") false none []

/-- Modelled from the spec: `buildRoutes(documents) -> Sequence<RouteEntry>`.
Fails fast with `DuplicatePathError` when a path is declared twice (a path
colliding with the synthesized `'/'` or `'*'` entries is likewise a duplicate,
since routing would be ambiguous), then with `OrphanedChildError` when a
document declares a parent path absent from the document set.  On success,
top-level entries are the parentless documents in input order, children are
nested under their parent's entry, and the root `'/'` entry plus the fallback
`'*'` entry are appended last. -/
def buildRoutes (docs : List Document) : Except BuildError (List RouteEntry) :=
  match findDuplicate (docPaths docs ++ ["/", "*"]) with
  | some p => .error (.DuplicatePathError p)
  | none =>
    match findOrphan docs with
    | some p => .error (.OrphanedChildError p)
    | none =>
      .ok (((docs.filter (fun d => d.parent == none)).map
              (buildEntry (docs.filter (fun d => !(d.parent == none)))))
           ++ [rootEntry, catchAllEntry])

/-- Modelled from the spec: a Sidebar Item is either a direct content-page
reference (a string identifier) or a Category with a label, a `collapsed`
initial UI state, and an ordered sequence of nested items. -/
inductive SidebarItem where
  | page (id : String)
  | category (label : String) (collapsed : Bool) (items : List SidebarItem)

/-- Modelled from the spec: the sidebar composer's error — a leaf item's
identifier is not present in `knownPages`. -/
inductive SidebarError where
  | UnknownPageReferenceError (id : String)
deriving DecidableEq, Repr

mutual

/-- The page identifiers referenced by the leaves of one sidebar item,
in declaration order. -/
def SidebarItem.leafIds : SidebarItem → List String
  | .page id => [id]
  | .category _ _ items => sidebarLeafIds items

/-- The page identifiers referenced by the leaves of a sidebar item
sequence, in declaration order. -/
def sidebarLeafIds : List SidebarItem → List String
  | [] => []
  | i :: is => i.leafIds ++ sidebarLeafIds is

end

/-- Modelled from the spec:
`composeSidebar(tree, knownPages) -> SidebarTree` — a pure validation pass:
it fails with `UnknownPageReferenceError` when a leaf item's identifier is
not present in `knownPages`, and otherwise returns the same structure. -/
def composeSidebar (tree : List SidebarItem) (knownPages : List String) :
    Except SidebarError (List SidebarItem) :=
  match (sidebarLeafIds tree).find? (fun id => !knownPages.contains id) with
  | some id => .error (.UnknownPageReferenceError id)
  | none => .ok tree

mutual

/-- All route entries of the subtree rooted at one entry (the entry itself
and all of its descendants). -/
def entryNodes : RouteEntry → List RouteEntry
  | .mk p c e s rs => .mk p c e s rs :: listNodes rs

/-- All route entries of a forest (every entry together with all of its
descendants). -/
def listNodes : List RouteEntry → List RouteEntry
  | [] => []
  | e :: es => entryNodes e ++ listNodes es

end

theorem contains_true_iff (l : List String) (a : String) :
    l.contains a = true ↔ a ∈ l := by
  simp [List.contains, List.elem_iff]

theorem findDuplicate_eq_none_iff (l : List String) :
    findDuplicate l = none ↔ l.Nodup := by
  induction l with
  | nil => simp [findDuplicate]
  | cons p rest ih =>
    by_cases h : rest.contains p = true
    · simp [findDuplicate, h, List.nodup_cons, (contains_true_iff rest p).mp h]
    · have hp : p ∉ rest := fun hm => h ((contains_true_iff rest p).mpr hm)
      simp [findDuplicate, h, List.nodup_cons, ih, hp]

theorem findDuplicate_append_of_not_nodup (l extra : List String)
    (h : ¬ l.Nodup) : ∃ p, findDuplicate (l ++ extra) = some p := by
  cases hfd : findDuplicate (l ++ extra) with
  | some p => exact ⟨p, rfl⟩
  | none =>
    exact absurd (((findDuplicate_eq_none_iff _).mp hfd).of_append_left) h

theorem buildEntry_def (pool : List Document) (d : Document) :
    buildEntry pool d = RouteEntry.mk d.path (componentRefFor d.path)
      (pool.filter (fun c => c.parent == some d.path)).isEmpty none
      ((pool.filter (fun c => c.parent == some d.path)).map
        (buildEntry (pool.filter (fun c => !(c.parent == some d.path))))) := by
  rw [buildEntry]
  congr 1
  exact List.attach_map_coe _ _

/-! ## Committed route tables

The repository commits generated route tables (three snapshots of
`.docusaurus/routes.js`).  They are embedded below verbatim: `path` is the
entry's `path` field, the component reference is the second argument of
`ComponentCreator` (its cache-busting hash; the catch-all's creator takes no
hash, embedded as `""`), `exact` and `sidebar` and `routes` are the optional
fields with their absent-field defaults. -/

/-- Leaf entry with `exact: true` and no sidebar. -/
def leafR (p h : String) : RouteEntry := .mk p h true none []

/-- Leaf entry with `exact: true` and `sidebar: "tutorialSidebar"`. -/
def leafSB (p h : String) : RouteEntry := .mk p h true (some "tutorialSidebar") []

/-- Prefix entry with nested routes (no `exact`, no `sidebar`). -/
def nodeR (p h : String) (rs : List RouteEntry) : RouteEntry := .mk p h false none rs

/-- First committed route table (first export in the routes snapshots). -/
def routeTableMain : List RouteEntry :=
  [ nodeR "/docs" "36f"
      [ nodeR "/docs" "07a"
          [ nodeR "/docs" "d9f"
              [ leafR "/docs/architecture/components" "123",
                leafR "/docs/architecture/data-flow" "d38",
                leafR "/docs/architecture/overview" "685",
                leafR "/docs/deployment/docker" "bc6",
                leafR "/docs/deployment/kubernetes" "3bf",
                leafR "/docs/deployment/production-setup" "e5f",
                leafSB "/docs/development/contributing" "98b",
                leafSB "/docs/development/local-setup" "7f8",
                leafSB "/docs/development/mlops-workflow" "532",
                leafSB "/docs/getting-started/overview" "3b4",
                leafSB "/docs/getting-started/quick-start" "09c",
                leafR "/docs/repositories/mlops-helm-charts" "bdc",
                leafSB "/docs/repositories/mlops-platform" "3c7",
                leafR "/docs/repositories/mlops-research-template" "673",
                leafSB "/docs/repositories/overview" "16f",
                leafSB "/docs/researcher-guide/best-practices" "316",
                leafSB "/docs/researcher-guide/overview" "957",
                leafSB "/docs/researcher-guide/setup" "70f",
                leafSB "/docs/researcher-guide/tracking-experiments" "557",
                leafSB "/docs/researcher-guide/training" "3f2",
                leafSB "/docs/tools/argocd" "75e",
                leafSB "/docs/tools/cassandra" "05a",
                leafSB "/docs/tools/cicd" "e47",
                leafR "/docs/tools/databases" "b2b",
                leafSB "/docs/tools/db-overview" "231",
                leafSB "/docs/tools/docker" "83a",
                leafSB "/docs/tools/dynamodb" "033",
                leafSB "/docs/tools/gpu-scheduling" "e8d",
                leafSB "/docs/tools/helm" "a79",
                leafSB "/docs/tools/influxdb" "f2d",
                leafSB "/docs/tools/kubernetes" "6b6",
                leafSB "/docs/tools/memcached" "83f",
                leafSB "/docs/tools/message-queues" "89a",
                leafSB "/docs/tools/minio" "1d1",
                leafSB "/docs/tools/mlflow" "a7c",
                leafSB "/docs/tools/mongodb" "01a",
                leafSB "/docs/tools/monitoring" "ece",
                leafSB "/docs/tools/mysql" "856",
                leafSB "/docs/tools/overview" "efb",
                leafSB "/docs/tools/postgres" "f58",
                leafSB "/docs/tools/prometheus" "8e3",
                leafSB "/docs/tools/redis" "d33" ] ] ],
    leafR "/" "2e1",
    RouteEntry.mk "*" "" false none [] ]

/-- Second committed route table (second export in the first routes
snapshot, the one that also carries the debug routes). -/
def routeTableDebug : List RouteEntry :=
  [ leafR "/__docusaurus/debug" "5ff",
    leafR "/__docusaurus/debug/config" "5ba",
    leafR "/__docusaurus/debug/content" "a2b",
    leafR "/__docusaurus/debug/globalData" "c3c",
    leafR "/__docusaurus/debug/metadata" "156",
    leafR "/__docusaurus/debug/registry" "88c",
    leafR "/__docusaurus/debug/routes" "000",
    nodeR "/docs" "68d"
      [ nodeR "/docs" "ec3"
          [ nodeR "/docs" "bb2"
              [ leafR "/docs/architecture/components" "123",
                leafR "/docs/architecture/data-flow" "d38",
                leafR "/docs/architecture/overview" "685",
                leafR "/docs/deployment/docker" "bc6",
                leafR "/docs/deployment/kubernetes" "3bf",
                leafR "/docs/deployment/production-setup" "e5f",
                leafR "/docs/development/contributing" "582",
                leafR "/docs/development/local-setup" "cba",
                leafSB "/docs/getting-started/overview" "3b4",
                leafSB "/docs/getting-started/quick-start" "09c",
                leafR "/docs/repositories/mlops-helm-charts" "bdc",
                leafSB "/docs/repositories/mlops-platform" "3c7",
                leafR "/docs/repositories/mlops-research-template" "673",
                leafSB "/docs/repositories/overview" "16f",
                leafR "/docs/researcher-guide/best-practices" "4af",
                leafR "/docs/researcher-guide/overview" "93d",
                leafR "/docs/researcher-guide/setup" "4e4",
                leafR "/docs/researcher-guide/tracking-experiments" "d43",
                leafR "/docs/researcher-guide/training" "e0d",
                leafR "/docs/tools/docker" "1b7",
                leafR "/docs/tools/kubernetes" "824",
                leafR "/docs/tools/minio" "c80",
                leafSB "/docs/tools/mlflow" "a7c",
                leafSB "/docs/tools/overview" "efb",
                leafR "/docs/tools/postgres" "e44" ] ] ],
    leafR "/" "2e1",
    RouteEntry.mk "*" "" false none [] ]

/-- Third committed route table (the second routes snapshot). -/
def routeTableAlt : List RouteEntry :=
  [ nodeR "/docs" "6b8"
      [ nodeR "/docs" "aef"
          [ nodeR "/docs" "981"
              [ leafR "/docs/architecture/components" "123",
                leafR "/docs/architecture/data-flow" "d38",
                leafR "/docs/architecture/overview" "685",
                leafR "/docs/deployment/docker" "bc6",
                leafR "/docs/deployment/kubernetes" "3bf",
                leafR "/docs/deployment/production-setup" "e5f",
                leafSB "/docs/development/contributing" "98b",
                leafSB "/docs/development/local-setup" "7f8",
                leafSB "/docs/development/mlops-workflow" "532",
                leafSB "/docs/getting-started/overview" "3b4",
                leafSB "/docs/getting-started/quick-start" "09c",
                leafR "/docs/repositories/mlops-helm-charts" "bdc",
                leafSB "/docs/repositories/mlops-platform" "3c7",
                leafR "/docs/repositories/mlops-research-template" "673",
                leafSB "/docs/repositories/overview" "16f",
                leafSB "/docs/researcher-guide/best-practices" "316",
                leafSB "/docs/researcher-guide/overview" "957",
                leafSB "/docs/researcher-guide/setup" "70f",
                leafSB "/docs/researcher-guide/tracking-experiments" "557",
                leafSB "/docs/researcher-guide/training" "3f2",
                leafSB "/docs/tools/databases" "2d0",
                leafSB "/docs/tools/docker" "83a",
                leafSB "/docs/tools/kubernetes" "6b6",
                leafSB "/docs/tools/message-queues" "89a",
                leafSB "/docs/tools/minio" "1d1",
                leafSB "/docs/tools/mlflow" "a7c",
                leafSB "/docs/tools/overview" "efb",
                leafSB "/docs/tools/postgres" "f58" ] ] ],
    leafR "/" "2e1",
    RouteEntry.mk "*" "" false none [] ]

/-- All committed route tables. -/
def committedRouteTables : List (List RouteEntry) :=
  [routeTableMain, routeTableDebug, routeTableAlt]

/-! ## Committed sidebar configurations -/

/-- The sidebar configuration committed at `sidebars.js`: the
`tutorialSidebar` entry, a flat ordered list of six content-page ids. -/
def tutorialSidebar : List SidebarItem :=
  [ .page "getting-started/overview",
    .page "getting-started/quick-start",
    .page "repositories/overview",
    .page "repositories/mlops-platform",
    .page "tools/overview",
    .page "tools/mlflow" ]

/-- The richer `tutorialSidebar` variant recorded in the project summary
documents: four leading page ids followed by nested categories. -/
def tutorialSidebarNested : List SidebarItem :=
  [ .page "getting-started/overview",
    .page "getting-started/quick-start",
    .page "repositories/overview",
    .page "repositories/mlops-platform",
    .category "Researcher Guide" false
      [ .page "researcher-guide/overview",
        .page "researcher-guide/setup",
        .page "researcher-guide/training",
        .page "researcher-guide/tracking-experiments",
        .page "researcher-guide/best-practices" ],
    .category "Development" false
      [ .page "development/mlops-workflow",
        .page "development/local-setup",
        .page "development/contributing" ],
    .category "Tools & Infrastructure" false
      [ .page "tools/overview",
        .category "Machine Learning Tools" true
          [ .page "tools/mlflow" ],
        .category "Infrastructure & Orchestration" true
          [ .page "tools/docker",
            .page "tools/kubernetes" ],
        .category "Data Management" true
          [ .page "tools/minio",
            .page "tools/postgres",
            .page "tools/databases" ],
        .category "Message Queues & Event Streaming" true
          [ .page "tools/message-queues" ] ] ]

/-- Character-wise prefix test on path strings (`p` is a prefix of `s`). -/
def pathIsPrefixOf (p s : String) : Bool := p.data.isPrefixOf s.data

/-! ## Committed container interface

The Dockerfile's production stage installs the generic `http-server`
package, copies the built static site into `build`, exposes a port, probes
liveness with `wget` against the root URL, and starts the server with the
directory and port passed as command-line configuration. -/

/-- The serving configuration extracted from the Dockerfile production
stage. -/
structure ContainerInterface where
  server : String
  servedDir : String
  exposedPort : Nat
  cmd : List String
  healthcheckPath : String
  healthcheckPort : Nat
deriving DecidableEq, Repr

/-- A generic static-file-server invocation: serve `dir` with the port
supplied as the `-p` configuration option. -/
def serveCommand (server dir : String) (port : Nat) : List String :=
  [server, dir, "-p", toString port, "--cors", "-c-1"]

/-- The committed Dockerfile's production stage: `EXPOSE 3000`,
`HEALTHCHECK CMD wget --quiet --tries=1 --spider http://localhost:3000/`,
`CMD ["http-server", "build", "-p", "3000", "--cors", "-c-1"]`. -/
def dockerContainer : ContainerInterface :=
  { server := "http-server"
    servedDir := "build"
    exposedPort := 3000
    cmd := ["http-server", "build", "-p", "3000", "--cors", "-c-1"]
    healthcheckPath := "/"
    healthcheckPort := 3000 }

/-! ## Lemmas about the modelled builder -/

theorem listNodes_append (l₁ l₂ : List RouteEntry) :
    listNodes (l₁ ++ l₂) = listNodes l₁ ++ listNodes l₂ := by
  induction l₁ with
  | nil => simp [listNodes]
  | cons e es ih => simp [listNodes, ih]

theorem mem_listNodes {e : RouteEntry} (l : List RouteEntry) :
    e ∈ listNodes l ↔ ∃ x ∈ l, e ∈ entryNodes x := by
  induction l with
  | nil => simp [listNodes]
  | cons x xs ih => simp [listNodes, ih]

theorem buildEntry_path (pool : List Document) (d : Document) :
    (buildEntry pool d).path = d.path := by
  rw [buildEntry_def]; rfl

theorem buildEntry_routes (pool : List Document) (d : Document) :
    (buildEntry pool d).routes =
      (pool.filter (fun c => c.parent == some d.path)).map
        (buildEntry (pool.filter (fun c => !(c.parent == some d.path)))) := by
  rw [buildEntry_def]; rfl

theorem buildEntry_exact (pool : List Document) (d : Document) :
    (buildEntry pool d).exact =
      (pool.filter (fun c => c.parent == some d.path)).isEmpty := by
  rw [buildEntry_def]; rfl

theorem docPaths_filter_sublist (pool : List Document) (q : Document → Bool) :
    (docPaths (pool.filter q)).Sublist (docPaths pool) :=
  List.Sublist.map Document.path (List.filter_sublist pool)

theorem entryNodes_eq (e : RouteEntry) :
    entryNodes e = e :: listNodes e.routes := by
  cases e; rfl

/-- Every node of an entry built from `pool` lists as the paths of its
children a subsequence of the paths of `pool` (children are a filter of the
pool, kept in pool order). -/
theorem nodes_of_buildEntry_sublist :
    ∀ (n : Nat) (pool : List Document), pool.length ≤ n → ∀ (d : Document),
      ∀ e ∈ entryNodes (buildEntry pool d),
        (e.routes.map RouteEntry.path).Sublist (docPaths pool) := by
  intro n
  induction n with
  | zero =>
    intro pool hlen d e he
    have hpool : pool = [] := List.eq_nil_of_length_eq_zero (Nat.le_zero.mp hlen)
    subst hpool
    rw [entryNodes_eq, buildEntry_routes] at he
    simp [listNodes] at he
    subst he
    simp [buildEntry_routes, docPaths]
  | succ n ih =>
    intro pool hlen d e he
    rw [entryNodes_eq, buildEntry_routes] at he
    rcases List.mem_cons.mp he with rfl | hmem
    · rw [buildEntry_routes, List.map_map]
      have : (RouteEntry.path ∘
          buildEntry (pool.filter (fun c => !(c.parent == some d.path)))) =
          Document.path := by
        funext c; simp [Function.comp, buildEntry_path]
      rw [this]
      exact docPaths_filter_sublist pool _
    · rw [mem_listNodes] at hmem
      obtain ⟨x, hx, hex⟩ := hmem
      obtain ⟨c, hc, rfl⟩ := List.mem_map.mp hx
      have hkids : pool.filter (fun c => c.parent == some d.path) ≠ [] :=
        List.ne_nil_of_mem hc
      have hrest : (pool.filter (fun c => !(c.parent == some d.path))).length
          < pool.length := length_filter_neg_lt _ _ hkids
      have hle : (pool.filter (fun c => !(c.parent == some d.path))).length ≤ n :=
        Nat.lt_succ_iff.mp (Nat.lt_of_lt_of_le hrest hlen)
      exact (ih _ hle c e hex).trans (docPaths_filter_sublist pool _)

/-- Every node of a built entry is `exact` precisely when it has no
children (leaves are `exact`, prefix entries are not). -/
theorem nodes_of_buildEntry_exact :
    ∀ (n : Nat) (pool : List Document), pool.length ≤ n → ∀ (d : Document),
      ∀ e ∈ entryNodes (buildEntry pool d), e.exact = e.routes.isEmpty := by
  intro n
  induction n with
  | zero =>
    intro pool hlen d e he
    have hpool : pool = [] := List.eq_nil_of_length_eq_zero (Nat.le_zero.mp hlen)
    subst hpool
    rw [entryNodes_eq, buildEntry_routes] at he
    simp [listNodes] at he
    subst he
    simp [buildEntry_exact, buildEntry_routes]
  | succ n ih =>
    intro pool hlen d e he
    rw [entryNodes_eq, buildEntry_routes] at he
    rcases List.mem_cons.mp he with rfl | hmem
    · rw [buildEntry_exact, buildEntry_routes]
      cases pool.filter (fun c => c.parent == some d.path) <;> rfl
    · rw [mem_listNodes] at hmem
      obtain ⟨x, hx, hex⟩ := hmem
      obtain ⟨c, hc, rfl⟩ := List.mem_map.mp hx
      have hkids : pool.filter (fun c => c.parent == some d.path) ≠ [] :=
        List.ne_nil_of_mem hc
      have hrest : (pool.filter (fun c => !(c.parent == some d.path))).length
          < pool.length := length_filter_neg_lt _ _ hkids
      have hle : (pool.filter (fun c => !(c.parent == some d.path))).length ≤ n :=
        Nat.lt_succ_iff.mp (Nat.lt_of_lt_of_le hrest hlen)
      exact ih _ hle c e hex

/-- Successful builds happen exactly when the path set (together with the
two reserved paths) is duplicate-free and no document is orphaned, and the
output is then the nested forest of the parentless documents followed by the
root and catch-all entries. -/
theorem buildRoutes_ok_elim {docs : List Document} {rs : List RouteEntry}
    (h : buildRoutes docs = .ok rs) :
    (docPaths docs ++ ["/", "*"]).Nodup ∧
    rs = ((docs.filter (fun d => d.parent == none)).map
            (buildEntry (docs.filter (fun d => !(d.parent == none)))))
         ++ [rootEntry, catchAllEntry] := by
  unfold buildRoutes at h
  split at h
  · exact absurd h (by simp)
  · next hfd =>
    split at h
    · exact absurd h (by simp)
    · next hfo =>
      refine ⟨(findDuplicate_eq_none_iff _).mp hfd, ?_⟩
      injection h with h'
      exact h'.symm

theorem buildRoutes_duplicate (docs : List Document)
    (h : ¬ (docPaths docs).Nodup) :
    ∃ p, buildRoutes docs = .error (.DuplicatePathError p) := by
  obtain ⟨p, hp⟩ := findDuplicate_append_of_not_nodup (docPaths docs) ["/", "*"] h
  refine ⟨p, ?_⟩
  unfold buildRoutes
  rw [hp]

theorem buildRoutes_orphan (docs : List Document)
    (hnd : (docPaths docs).Nodup)
    (hroot : "/" ∉ docPaths docs) (hstar : "*" ∉ docPaths docs)
    (h : ∃ d ∈ docs, isOrphanIn docs d = true) :
    ∃ p, buildRoutes docs = .error (.OrphanedChildError p) := by
  have hnd' : (docPaths docs ++ ["/", "*"]).Nodup := by
    rw [List.nodup_append]
    refine ⟨hnd, by decide, ?_⟩
    intro a ha hb
    simp at hb
    rcases hb with rfl | rfl
    · exact hroot ha
    · exact hstar ha
  have hfd : findDuplicate (docPaths docs ++ ["/", "*"]) = none :=
    (findDuplicate_eq_none_iff _).mpr hnd'
  have hsome : (docs.find? (isOrphanIn docs)).isSome := List.find?_isSome.mpr h
  obtain ⟨d0, hd0⟩ := Option.isSome_iff_exists.mp hsome
  have hpred := List.find?_some hd0
  cases hpp : d0.parent with
  | none => simp [isOrphanIn, hpp] at hpred
  | some pp =>
    refine ⟨pp, ?_⟩
    unfold buildRoutes
    rw [hfd]
    unfold findOrphan
    rw [hd0]
    simp [hpp]

/-! ## Claim theorems -/

/-- C1: for every document sequence in which two documents declare the same
path, `buildRoutes` fails with `DuplicatePathError`; for every document
sequence whose paths are duplicate-free (and clear of the reserved `'/'` and
`'*'` paths) in which some document declares a parent path not present in the
document set, `buildRoutes` fails with `OrphanedChildError` (when both error
conditions hold, the fail-fast pass reports the duplicate first); in every
failure case the build aborts and no registry is emitted — the output
registry exists only on success. -/
theorem buildRoutes_error_contract (docs : List Document) :
    (¬ (docPaths docs).Nodup →
      ∃ p, buildRoutes docs = .error (.DuplicatePathError p)) ∧
    ((docPaths docs).Nodup → "/" ∉ docPaths docs → "*" ∉ docPaths docs →
      (∃ d ∈ docs, isOrphanIn docs d = true) →
      ∃ p, buildRoutes docs = .error (.OrphanedChildError p)) ∧
    (∀ err, buildRoutes docs = .error err → ∀ rs, buildRoutes docs ≠ .ok rs) := by
  refine ⟨buildRoutes_duplicate docs, buildRoutes_orphan docs, ?_⟩
  intro err herr rs hok
  rw [herr] at hok
  cases hok

/-- Witness for C1 at concrete inputs: a duplicated path and an orphaned
child each abort the build with the corresponding error. -/
theorem buildRoutes_error_contract_witness :
    (buildRoutes [⟨"/docs/a", none⟩, ⟨"/docs/a", none⟩]).isOk = false ∧
    (buildRoutes [⟨"/docs/a", none⟩, ⟨"/docs/b", some "/docs"⟩]).isOk
      = false := by
  constructor
  · obtain ⟨p, hp⟩ := (buildRoutes_error_contract
      [⟨"/docs/a", none⟩, ⟨"/docs/a", none⟩]).1 (by decide)
    rw [hp]
    rfl
  · obtain ⟨p, hp⟩ := (buildRoutes_error_contract
      [⟨"/docs/a", none⟩, ⟨"/docs/b", some "/docs"⟩]).2.1
      (by decide) (by decide) (by decide) (by decide)
    rw [hp]
    rfl

/-- C2: `composeSidebar` fails with `UnknownPageReferenceError` if and only
if some leaf item's identifier is not a member of `knownPages`; when every
leaf identifier is known it succeeds and returns the very same structure
(hence the declared order of items and the `collapsed` flag of every
category are preserved). -/
theorem composeSidebar_contract (tree : List SidebarItem)
    (knownPages : List String) :
    ((∃ badId, composeSidebar tree knownPages
        = .error (.UnknownPageReferenceError badId)) ↔
      ∃ id ∈ sidebarLeafIds tree, knownPages.contains id = false) ∧
    ((∀ id ∈ sidebarLeafIds tree, knownPages.contains id = true) →
      composeSidebar tree knownPages = .ok tree) := by
  constructor
  · constructor
    · rintro ⟨badId, hb⟩
      unfold composeSidebar at hb
      split at hb
      · next id0 hf =>
        refine ⟨id0, List.mem_of_find?_eq_some hf, ?_⟩
        have hp := List.find?_some hf
        simpa using hp
      · cases hb
    · rintro ⟨id, hid, hfalse⟩
      have hsome :
          ((sidebarLeafIds tree).find? (fun i => !knownPages.contains i)).isSome :=
        List.find?_isSome.mpr ⟨id, hid, by
          show (!knownPages.contains id) = true
          rw [hfalse]
          decide⟩
      obtain ⟨id0, h0⟩ := Option.isSome_iff_exists.mp hsome
      exact ⟨id0, by unfold composeSidebar; rw [h0]⟩
  · intro hall
    have hnone :
        (sidebarLeafIds tree).find? (fun i => !knownPages.contains i) = none := by
      rw [List.find?_eq_none]
      intro x hx
      show ¬ (!knownPages.contains x) = true
      rw [hall x hx]
      decide
    unfold composeSidebar
    rw [hnone]

/-- Witness for C2 at concrete inputs: the committed flat sidebar validates
against its six page ids and is returned unchanged, and fails when the known
set is restricted to a single page. -/
theorem composeSidebar_contract_witness :
    composeSidebar tutorialSidebar
      ["getting-started/overview", "getting-started/quick-start",
       "repositories/overview", "repositories/mlops-platform",
       "tools/overview", "tools/mlflow"] = .ok tutorialSidebar ∧
    (composeSidebar tutorialSidebar ["getting-started/overview"]).isOk
      = false := by
  constructor
  · exact (composeSidebar_contract tutorialSidebar
      ["getting-started/overview", "getting-started/quick-start",
       "repositories/overview", "repositories/mlops-platform",
       "tools/overview", "tools/mlflow"]).2 (by decide)
  · obtain ⟨badId, hb⟩ := (composeSidebar_contract tutorialSidebar
      ["getting-started/overview"]).1.mpr (by decide)
    rw [hb]
    rfl

/-- C3: in the registry produced by `buildRoutes` for any non-empty document
set, and in each committed route table, the root entry with path `'/'` and
the catch-all entry with path `'*'` each occur exactly once at the top
level, and the `'*'` entry is ordered last among the top-level siblings
(lowest match priority). -/
theorem registry_root_and_catchall (docs : List Document) (rs : List RouteEntry) :
    (buildRoutes docs = .ok rs → docs ≠ [] →
      rs.countP (fun e => e.path == "/") = 1 ∧
      rs.countP (fun e => e.path == "*") = 1 ∧
      (rs.map RouteEntry.path).getLast? = some "*") ∧
    (∀ t ∈ committedRouteTables,
      t.countP (fun e => e.path == "/") = 1 ∧
      t.countP (fun e => e.path == "*") = 1 ∧
      (t.map RouteEntry.path).getLast? = some "*") := by
  constructor
  · intro hok _hne
    obtain ⟨hnd, hrs⟩ := buildRoutes_ok_elim hok
    subst hrs
    have hdisj := (List.nodup_append.mp hnd).2.2
    have hzero : ∀ s : String, s ∈ (["/", "*"] : List String) →
        List.countP (fun e => e.path == s)
          ((docs.filter (fun d => d.parent == none)).map
            (buildEntry (docs.filter (fun d => !(d.parent == none))))) = 0 := by
      intro s hs
      rw [List.countP_eq_zero]
      intro e hme
      obtain ⟨d, hd, rfl⟩ := List.mem_map.mp hme
      simp only [buildEntry_path]
      intro hbeq
      have hdp : d.path ∈ docPaths docs :=
        List.mem_map.mpr ⟨d, List.mem_of_mem_filter hd, rfl⟩
      exact hdisj ((eq_of_beq hbeq) ▸ hdp) hs
    refine ⟨?_, ?_, ?_⟩
    · rw [List.countP_append, hzero "/" (by simp)]
      decide
    · rw [List.countP_append, hzero "*" (by simp)]
      decide
    · rw [List.map_append, List.getLast?_append]
      rfl
  · decide

/-- Witness for C3: the registry built from the single document `/docs`
satisfies the root/catch-all contract, and so does the first committed
route table. -/
theorem registry_root_and_catchall_witness :
    ([RouteEntry.mk "/docs" "/docs" true none [], rootEntry,
        catchAllEntry].countP (fun e => e.path == "/") = 1 ∧
     [RouteEntry.mk "/docs" "/docs" true none [], rootEntry,
        catchAllEntry].countP (fun e => e.path == "*") = 1 ∧
     ([RouteEntry.mk "/docs" "/docs" true none [], rootEntry,
        catchAllEntry].map RouteEntry.path).getLast? = some "*") ∧
    (routeTableMain.countP (fun e => e.path == "/") = 1 ∧
     routeTableMain.countP (fun e => e.path == "*") = 1 ∧
     (routeTableMain.map RouteEntry.path).getLast? = some "*") := by
  constructor
  · exact (registry_root_and_catchall [⟨"/docs", none⟩]
      [RouteEntry.mk "/docs" "/docs" true none [], rootEntry, catchAllEntry]).1
      (by simp [buildRoutes, findDuplicate, findOrphan, isOrphanIn, docPaths,
        buildEntry_def, componentRefFor])
      (by decide)
  · exact (registry_root_and_catchall [] []).2 routeTableMain
      (by simp [committedRouteTables])

/-- C4: for all valid (successfully built) document sets, the route entries
produced by `buildRoutes` have pairwise-distinct `path` values among
siblings at each nesting level, and every committed route table has
pairwise-distinct `path` values at every nesting level. -/
theorem registry_unique_sibling_paths (docs : List Document)
    (rs : List RouteEntry) :
    (buildRoutes docs = .ok rs →
      (rs.map RouteEntry.path).Nodup ∧
      ∀ e ∈ listNodes rs, (e.routes.map RouteEntry.path).Nodup) ∧
    (∀ t ∈ committedRouteTables,
      (t.map RouteEntry.path).Nodup ∧
      ∀ e ∈ listNodes t, (e.routes.map RouteEntry.path).Nodup) := by
  constructor
  · intro hok
    obtain ⟨hnd, hrs⟩ := buildRoutes_ok_elim hok
    have hnddocs : (docPaths docs).Nodup := (List.nodup_append.mp hnd).1
    subst hrs
    constructor
    · rw [List.map_append, List.map_map]
      have hcomp : (RouteEntry.path ∘
          buildEntry (docs.filter (fun d => !(d.parent == none)))) =
          Document.path := by
        funext c
        simp [Function.comp, buildEntry_path]
      rw [hcomp]
      exact List.Sublist.nodup
        (List.Sublist.append_right
          (docPaths_filter_sublist docs (fun d => d.parent == none)) _) hnd
    · intro e he
      rw [listNodes_append] at he
      rcases List.mem_append.mp he with hmem | hmem
      · rw [mem_listNodes] at hmem
        obtain ⟨x, hx, hex⟩ := hmem
        obtain ⟨d, _hd, rfl⟩ := List.mem_map.mp hx
        have hsub := nodes_of_buildEntry_sublist _ _ le_rfl d e hex
        exact (hsub.trans (docPaths_filter_sublist docs _)).nodup hnddocs
      · have hrc : listNodes [rootEntry, catchAllEntry] =
            [rootEntry, catchAllEntry] := rfl
        rw [hrc] at hmem
        simp at hmem
        rcases hmem with rfl | rfl <;> decide
  · decide

/-- Witness for C4: unique sibling paths hold for the registry built from
the single document `/docs` (top level, and at the first entry), and for
the first committed route table. -/
theorem registry_unique_sibling_paths_witness :
    (([RouteEntry.mk "/docs" "/docs" true none [], rootEntry,
        catchAllEntry].map RouteEntry.path).Nodup ∧
      ((RouteEntry.mk "/docs" "/docs" true none []).routes.map
        RouteEntry.path).Nodup) ∧
    (routeTableMain.map RouteEntry.path).Nodup := by
  have h := (registry_unique_sibling_paths [⟨"/docs", none⟩]
      [RouteEntry.mk "/docs" "/docs" true none [], rootEntry, catchAllEntry]).1
    (by simp [buildRoutes, findDuplicate, findOrphan, isOrphanIn, docPaths,
      buildEntry_def, componentRefFor])
  exact ⟨⟨h.1, h.2 _ (List.mem_cons_self _ _)⟩,
    ((registry_unique_sibling_paths [] []).2 routeTableMain
      (by simp [committedRouteTables])).1⟩

/-- C5: sibling route entries in the output of `buildRoutes` appear in
exactly the order of the input document sequence — the top-level path
sequence is a subsequence of the input path sequence followed by the
synthesized `'/'` and `'*'` entries, and the children of every node are a
subsequence of the input path sequence (no implicit alphabetical sort) —
and `composeSidebar` returns its input structure unchanged on success, so
sibling ordering exactly matches the input sidebar spec's ordering. -/
theorem registry_order_preservation (docs : List Document)
    (rs : List RouteEntry) (tree : List SidebarItem)
    (knownPages : List String) (out : List SidebarItem) :
    (buildRoutes docs = .ok rs →
      (rs.map RouteEntry.path).Sublist (docPaths docs ++ ["/", "*"]) ∧
      ∀ e ∈ listNodes rs,
        (e.routes.map RouteEntry.path).Sublist (docPaths docs)) ∧
    (composeSidebar tree knownPages = .ok out → out = tree) := by
  constructor
  · intro hok
    obtain ⟨_hnd, hrs⟩ := buildRoutes_ok_elim hok
    subst hrs
    constructor
    · rw [List.map_append, List.map_map]
      have hcomp : (RouteEntry.path ∘
          buildEntry (docs.filter (fun d => !(d.parent == none)))) =
          Document.path := by
        funext c
        simp [Function.comp, buildEntry_path]
      rw [hcomp]
      exact List.Sublist.append_right
        (docPaths_filter_sublist docs (fun d => d.parent == none)) _
    · intro e he
      rw [listNodes_append] at he
      rcases List.mem_append.mp he with hmem | hmem
      · rw [mem_listNodes] at hmem
        obtain ⟨x, hx, hex⟩ := hmem
        obtain ⟨d, _hd, rfl⟩ := List.mem_map.mp hx
        have hsub := nodes_of_buildEntry_sublist _ _ le_rfl d e hex
        exact hsub.trans (docPaths_filter_sublist docs _)
      · have hrc : listNodes [rootEntry, catchAllEntry] =
            [rootEntry, catchAllEntry] := rfl
        rw [hrc] at hmem
        simp at hmem
        rcases hmem with rfl | rfl
        · exact List.nil_sublist _
        · exact List.nil_sublist _
  · intro hok
    unfold composeSidebar at hok
    split at hok
    · cases hok
    · injection hok with h'
      exact h'.symm

/-- Witness for C5: order preservation at the registry built from the
single document `/docs`, and the committed flat sidebar returned unchanged
by the composer. -/
theorem registry_order_preservation_witness :
    (([RouteEntry.mk "/docs" "/docs" true none [], rootEntry,
        catchAllEntry].map RouteEntry.path).Sublist
      (docPaths [⟨"/docs", none⟩] ++ ["/", "*"]) ∧
     ((RouteEntry.mk "/docs" "/docs" true none []).routes.map
        RouteEntry.path).Sublist (docPaths [⟨"/docs", none⟩])) ∧
    tutorialSidebar = tutorialSidebar := by
  constructor
  · have h := (registry_order_preservation [⟨"/docs", none⟩]
        [RouteEntry.mk "/docs" "/docs" true none [], rootEntry, catchAllEntry]
        [] [] []).1
      (by simp [buildRoutes, findDuplicate, findOrphan, isOrphanIn, docPaths,
        buildEntry_def, componentRefFor])
    exact ⟨h.1, h.2 _ (List.mem_cons_self _ _)⟩
  · exact (registry_order_preservation [] [] tutorialSidebar
      ["getting-started/overview", "getting-started/quick-start",
       "repositories/overview", "repositories/mlops-platform",
       "tools/overview", "tools/mlflow"] tutorialSidebar).2 (by rfl)

/-- C6: every route entry marked `exact: true` is a leaf — in the registry
produced by `buildRoutes` and in every committed route table, an entry with
`exact: true` carries no child routes, and an entry acting as a prefix for
nested routes (non-empty `routes`) is not marked `exact`. -/
theorem exact_entries_are_leaves (docs : List Document)
    (rs : List RouteEntry) :
    (buildRoutes docs = .ok rs →
      ∀ e ∈ listNodes rs,
        (e.exact = true → e.routes.isEmpty = true) ∧
        (e.routes.isEmpty = false → e.exact = false)) ∧
    (∀ t ∈ committedRouteTables, ∀ e ∈ listNodes t,
        (e.exact = true → e.routes.isEmpty = true) ∧
        (e.routes.isEmpty = false → e.exact = false)) := by
  constructor
  · intro hok
    obtain ⟨_hnd, hrs⟩ := buildRoutes_ok_elim hok
    subst hrs
    intro e he
    rw [listNodes_append] at he
    rcases List.mem_append.mp he with hmem | hmem
    · rw [mem_listNodes] at hmem
      obtain ⟨x, hx, hex⟩ := hmem
      obtain ⟨d, _hd, rfl⟩ := List.mem_map.mp hx
      have heq := nodes_of_buildEntry_exact _ _ le_rfl d e hex
      constructor
      · intro hx1
        rw [← heq]
        exact hx1
      · intro hx2
        rw [heq]
        exact hx2
    · have hrc : listNodes [rootEntry, catchAllEntry] =
          [rootEntry, catchAllEntry] := rfl
      rw [hrc] at hmem
      simp at hmem
      rcases hmem with rfl | rfl <;> exact (by decide)
  · decide

/-- Witness for C6: the `exact` `/docs` leaf of the registry built from the
single document `/docs` indeed carries no children. -/
theorem exact_entries_are_leaves_witness :
    (RouteEntry.mk "/docs" "/docs" true none []).routes.isEmpty = true := by
  have h := (exact_entries_are_leaves [⟨"/docs", none⟩]
      [RouteEntry.mk "/docs" "/docs" true none [], rootEntry, catchAllEntry]).1
    (by simp [buildRoutes, findDuplicate, findOrphan, isOrphanIn, docPaths,
      buildEntry_def, componentRefFor])
  exact (h _ (List.mem_cons_self _ _)).1 rfl

/-- C7: every content-page reference listed under `tutorialSidebar` in the
committed sidebar configuration (`getting-started/overview`,
`getting-started/quick-start`, `repositories/overview`,
`repositories/mlops-platform`, `tools/overview`, `tools/mlflow`) names a
content document present in the route registry: each committed route table
contains an exact content-page entry at `/docs/<id>`. -/
theorem sidebar_refs_resolve_in_registry :
    ((sidebarLeafIds tutorialSidebar).all (fun id =>
      committedRouteTables.all (fun t =>
        (listNodes t).any (fun e =>
          e.path == "/docs/" ++ id && e.exact)))) = true := by
  decide

/-- C8: in every committed route table, the sidebar association appears only
on leaf content pages — each entry carrying a sidebar reference is an
`exact: true` leaf with no child routes, and no prefix (parent) entry
carries a sidebar reference. -/
theorem sidebar_assoc_only_on_exact_leaves :
    (committedRouteTables.all (fun t => (listNodes t).all (fun e =>
      (!e.sidebar.isSome || (e.exact && e.routes.isEmpty)) &&
      (e.routes.isEmpty || e.sidebar.isNone)))) = true := by
  decide

/-- C9: in every committed route table, parent-child nesting follows path
prefixes — for every route entry, the path of each entry nested below it
(its children and all deeper descendants, so in particular every entry
nested under a `/docs` entry) begins with that entry's path string. -/
theorem nesting_follows_path_prefixes :
    (committedRouteTables.all (fun t => (listNodes t).all (fun e =>
      (listNodes e.routes).all (fun c =>
        pathIsPrefixOf e.path c.path)))) = true := by
  decide

/-- C10: the container interface serves the built static directory through
a generic HTTP static file server (`http-server` over the `build`
directory); the port is supplied as the server's `-p` configuration option,
the exposed port equals it, and the liveness check probes the root path
`'/'` on that same port. -/
theorem container_serves_built_site_with_root_liveness :
    dockerContainer.server = "http-server" ∧
    dockerContainer.servedDir = "build" ∧
    (∃ port, dockerContainer.cmd =
        serveCommand dockerContainer.server dockerContainer.servedDir port ∧
      dockerContainer.exposedPort = port ∧
      dockerContainer.healthcheckPort = port) ∧
    dockerContainer.healthcheckPath = "/" :=
  ⟨rfl, rfl, ⟨3000, by decide, rfl, rfl⟩, rfl⟩
